import Mathlib

/-!
Verification of the subscribed-videos aggregation endpoint
(`app/api/videos/route.ts`, `GET` handler).

The handler is embedded shallowly: every upstream interaction (the
userinfo token check, the subscriptions list, one search call per
channel) is a field of a `World` record, `fetch`/`json` exceptions are
`Except.error`, and `new Date(s).getTime()` is an abstract
`parseTime : String → Int`.  The handler returns the HTTP response it
would produce together with the ordered trace of upstream calls it
issued.
-/

namespace Ytsubfetch

/-- Result of JavaScript `x || d` on an optional string: `d` when the
field is absent or the empty string (both falsy), else the string. -/
def jsOr (s : Option String) (d : String) : String :=
  match s with
  | some v => if v = "" then d else v
  | none => d

/-- Nested `id` object of a raw video (`id?.videoId?`). -/
structure VideoId where
  videoId : Option String
deriving DecidableEq, Repr

/-- Medium thumbnail object (`medium?.url?`). -/
structure Thumb where
  url : Option String
deriving DecidableEq, Repr

/-- Thumbnails object (`thumbnails?.medium?`). -/
structure Thumbnails where
  medium : Option Thumb
deriving DecidableEq, Repr

/-- Snippet of a raw video (`snippet?.title?`, `thumbnails?`, `publishedAt?`). -/
structure VideoSnippet where
  title : Option String
  thumbnails : Option Thumbnails
  publishedAt : Option String
deriving DecidableEq, Repr

/-- Raw video record as received from the search endpoint (`YouTubeVideo`). -/
structure YouTubeVideo where
  id : Option VideoId
  snippet : Option VideoSnippet
deriving DecidableEq, Repr

/-- Resource id of a subscription record (`resourceId?.channelId?`). -/
structure ResourceId where
  channelId : Option String
deriving DecidableEq, Repr

/-- Snippet of a subscription record. -/
structure SubSnippet where
  resourceId : Option ResourceId
deriving DecidableEq, Repr

/-- Subscription record as received from the subscriptions endpoint. -/
structure Subscription where
  snippet : Option SubSnippet
deriving DecidableEq, Repr

/-- Normalized video record (`SanitizedVideo`), flattening the nested
output shape: all four fields are present strings. -/
structure SanitizedVideo where
  videoId : String
  title : String
  thumbnailUrl : String
  publishedAt : String
deriving DecidableEq, Repr

/-- Error object optionally carried by an upstream JSON payload
(`error.message`, `error.code`). -/
structure ApiError where
  message : Option String
  code : Option Nat
deriving DecidableEq, Repr

/-- Parsed body of the subscriptions response (`subscriptionsData`). -/
structure SubscriptionsData where
  error : Option ApiError
  items : Option (List Subscription)
deriving DecidableEq, Repr

/-- Parsed body of one channel-search response (`data`). -/
structure SearchData where
  error : Option ApiError
  items : Option (List YouTubeVideo)
deriving DecidableEq, Repr

/-- One upstream HTTP call issued by the handler. -/
inductive UpstreamCall where
  | userinfo
  | subscriptions
  | search (channelId : String)
deriving DecidableEq, Repr

/-- Body of the handler's JSON response. -/
inductive ResponseBody where
  | success (items : List SanitizedVideo) (subscriptionCount : Nat)
  | errorOnly (error : String)
  | errorWithApiDetails (error : String) (details : ApiError)
  | errorWithMsgDetails (error : String) (details : String)
deriving DecidableEq, Repr

/-- HTTP response produced by the handler: status, JSON body, and the
extra headers explicitly passed to `NextResponse.json`. -/
structure ApiResponse where
  status : Nat
  body : ResponseBody
  headers : List (String × String)
deriving DecidableEq, Repr

/-- Cache-disabling header triple used by the handler. -/
def cacheHeaders : List (String × String) :=
  [("Cache-Control", "no-store, no-cache, must-revalidate, proxy-revalidate"),
   ("Pragma", "no-cache"),
   ("Expires", "0")]

/-- Environment of one request: each upstream call's outcome
(`Except.error` = the `fetch`/`json()` call throws), the current
timestamp `new Date().toISOString()`, and the numeric timestamp parser
`new Date(s).getTime()`. -/
structure World where
  userinfo : Except String Bool
  subscriptions : Except String (Bool × SubscriptionsData)
  search : String → Except String (Bool × SearchData)
  now : String
  parseTime : String → Int

/-- Channel id extracted from one subscription record:
`sub.snippet?.resourceId?.channelId`, with falsy (absent or empty)
values dropped by `.filter(Boolean)`. -/
def extractChannelId (sub : Subscription) : Option String :=
  match (sub.snippet.bind SubSnippet.resourceId).bind ResourceId.channelId with
  | some c => if c = "" then none else some c
  | none => none

/-- `subscriptionsData.items.map(sub => sub.snippet?.resourceId?.channelId).filter(Boolean)`. -/
def channelIdsOf (subs : List Subscription) : List String :=
  subs.filterMap extractChannelId

/-- Mapping step of the sanitizer: build a `SanitizedVideo` from one
raw record, defaulting each falsy field (`|| ''`, `|| now`). -/
def sanitizeVideo (now : String) (item : YouTubeVideo) : SanitizedVideo :=
  { videoId := jsOr (item.id.bind VideoId.videoId) ""
    title := jsOr (item.snippet.bind VideoSnippet.title) ""
    thumbnailUrl :=
      jsOr (((item.snippet.bind VideoSnippet.thumbnails).bind Thumbnails.medium).bind Thumb.url) ""
    publishedAt := jsOr (item.snippet.bind VideoSnippet.publishedAt) now }

/-- Filter predicate: `video.id.videoId && video.snippet.thumbnails.medium.url`. -/
def keepVideo (v : SanitizedVideo) : Bool :=
  v.videoId != "" && v.thumbnailUrl != ""

/-- Sanitization of one channel response:
`data.items?.map(...).filter(...) || []`. -/
def sanitizeVideos (now : String) (items : Option (List YouTubeVideo)) : List SanitizedVideo :=
  match items with
  | none => []
  | some l => (l.map (sanitizeVideo now)).filter keepVideo

/-- Videos contributed by one channel once its search call returned
without throwing: the channel is skipped (`continue`) when
`!response.ok || data.error`, else its items are sanitized. -/
def channelContribution (now : String) (r : Bool × SearchData) : List SanitizedVideo :=
  if !r.1 || r.2.error.isSome then [] else sanitizeVideos now r.2.items

/-- Sequential per-channel fetch loop.  A throwing call aborts the loop
with the exception (caught by the handler's `catch`); otherwise the
channel contributions are concatenated in iteration order.  The second
component is the trace of search calls issued. -/
def fetchAll (w : World) : List String → Except String (List SanitizedVideo) × List UpstreamCall
  | [] => (Except.ok [], [])
  | cid :: rest =>
    match w.search cid with
    | Except.error e => (Except.error e, [UpstreamCall.search cid])
    | Except.ok r =>
      let tail := fetchAll w rest
      (tail.1.map (fun vs => channelContribution w.now r ++ vs),
       UpstreamCall.search cid :: tail.2)

/-- Sort comparator of the handler,
`(a, b) => new Date(b.snippet.publishedAt).getTime() - new Date(a.snippet.publishedAt).getTime()`:
`a` sorts no later than `b` exactly when the parsed timestamp of `a`
is at least that of `b`. -/
def videoLe (pt : String → Int) (a b : SanitizedVideo) : Bool :=
  pt b.publishedAt ≤ pt a.publishedAt

/-- Response for a missing access token. -/
def missingTokenResponse : ApiResponse :=
  { status := 401, body := ResponseBody.errorOnly "Access token required", headers := cacheHeaders }

/-- Response for a token rejected by the userinfo endpoint. -/
def invalidTokenResponse : ApiResponse :=
  { status := 401
    body := ResponseBody.errorOnly "Invalid or expired access token"
    headers := cacheHeaders }

/-- Response when the subscriptions payload carries an `error` field:
`status = error.code || 400`, `error = error.message || "YouTube API Error"`,
and no extra headers are passed. -/
def upstreamErrorResponse (err : ApiError) : ApiResponse :=
  { status := match err.code with
      | some c => if c = 0 then 400 else c
      | none => 400
    body := ResponseBody.errorWithApiDetails (jsOr err.message "YouTube API Error") err
    headers := [] }

/-- Response when the subscriptions list is absent or empty; no extra
headers are passed. -/
def notFoundResponse : ApiResponse :=
  { status := 404, body := ResponseBody.errorOnly "No subscriptions found", headers := [] }

/-- Catch-all response for an uncaught exception. -/
def internalErrorResponse (e : String) : ApiResponse :=
  { status := 500
    body := ResponseBody.errorWithMsgDetails "Internal server error" e
    headers := cacheHeaders }

/-- Success response. -/
def successResponse (items : List SanitizedVideo) (subscriptionCount : Nat) : ApiResponse :=
  { status := 200, body := ResponseBody.success items subscriptionCount, headers := cacheHeaders }

/-- The `GET` request handler.  `accessToken` is
`searchParams.get("access_token")` (`none` = parameter missing).  The
result pairs the HTTP response with the ordered trace of upstream
calls issued. -/
def GET (w : World) (accessToken : Option String) : ApiResponse × List UpstreamCall :=
  match accessToken with
  | none => (missingTokenResponse, [])
  | some tok =>
    if tok = "" then (missingTokenResponse, [])
    else
      match w.userinfo with
      | Except.error e => (internalErrorResponse e, [UpstreamCall.userinfo])
      | Except.ok uOk =>
        if !uOk then (invalidTokenResponse, [UpstreamCall.userinfo])
        else
          match w.subscriptions with
          | Except.error e =>
            (internalErrorResponse e, [UpstreamCall.userinfo, UpstreamCall.subscriptions])
          | Except.ok sr =>
            match sr.2.error with
            | some err =>
              (upstreamErrorResponse err, [UpstreamCall.userinfo, UpstreamCall.subscriptions])
            | none =>
              match sr.2.items with
              | none =>
                (notFoundResponse, [UpstreamCall.userinfo, UpstreamCall.subscriptions])
              | some items =>
                if items.length = 0 then
                  (notFoundResponse, [UpstreamCall.userinfo, UpstreamCall.subscriptions])
                else
                  let channelIds := channelIdsOf items
                  let loop := fetchAll w channelIds
                  match loop.1 with
                  | Except.error e =>
                    (internalErrorResponse e,
                     UpstreamCall.userinfo :: UpstreamCall.subscriptions :: loop.2)
                  | Except.ok allVideos =>
                    let sortedVideos := (allVideos.mergeSort (videoLe w.parseTime)).take 10
                    (successResponse sortedVideos channelIds.length,
                     UpstreamCall.userinfo :: UpstreamCall.subscriptions :: loop.2)

/-- Videos contributed by one channel whose search call does not throw
(and `[]` for a throwing call, which never contributes). -/
def contributionOf (w : World) (cid : String) : List SanitizedVideo :=
  match w.search cid with
  | Except.ok r => channelContribution w.now r
  | Except.error _ => []

/-! Concrete instances used to exercise the handler on closed inputs. -/

/-- Raw video with all fields present. -/
def mkVid (i u d : String) : YouTubeVideo :=
  { id := some { videoId := some i }
    snippet := some
      { title := some ("T" ++ i)
        thumbnails := some { medium := some { url := some u } }
        publishedAt := some d } }

/-- Subscription record with a channel id. -/
def mkSub (c : String) : Subscription :=
  { snippet := some { resourceId := some { channelId := some c } } }

/-- World in which the token validates, two channels "A" and "B" are
subscribed, and both searches succeed.  Timestamps are parsed by string
length. -/
def wOk : World :=
  { userinfo := Except.ok true
    subscriptions := Except.ok (true, { error := none, items := some [mkSub "A", mkSub "B"] })
    search := fun cid =>
      if cid = "A" then
        Except.ok (true,
          { error := none, items := some [mkVid "a1" "u1" "d1", mkVid "a2" "u2" "d55555"] })
      else
        Except.ok (true, { error := none, items := some [mkVid "b1" "u3" "d333"] })
    now := "NOW"
    parseTime := fun s => (s.length : Int) }

/-- Items of the success response of `wOk`. -/
def wOkItems : List SanitizedVideo :=
  [{ videoId := "a2", title := "Ta2", thumbnailUrl := "u2", publishedAt := "d55555" },
   { videoId := "b1", title := "Tb1", thumbnailUrl := "u3", publishedAt := "d333" },
   { videoId := "a1", title := "Ta1", thumbnailUrl := "u1", publishedAt := "d1" }]

/-- Top item of the success response of `wOk`. -/
def wOkTop : SanitizedVideo :=
  { videoId := "a2", title := "Ta2", thumbnailUrl := "u2", publishedAt := "d55555" }

/-- World whose userinfo call reports a non-success status (token
rejected). -/
def wBadTok : World :=
  { userinfo := Except.ok false
    subscriptions := Except.ok (true, { error := none, items := none })
    search := fun _ => Except.ok (true, { error := none, items := none })
    now := "NOW"
    parseTime := fun _ => 0 }

/-- World whose subscriptions list is present but empty. -/
def wNoSubs : World :=
  { userinfo := Except.ok true
    subscriptions := Except.ok (true, { error := none, items := some [] })
    search := fun _ => Except.ok (true, { error := none, items := none })
    now := "NOW"
    parseTime := fun _ => 0 }

/-- World in which the search call of channel "A" throws at the
transport level while that of channel "B" succeeds. -/
def wNet : World :=
  { userinfo := Except.ok true
    subscriptions := Except.ok (true, { error := none, items := some [mkSub "A", mkSub "B"] })
    search := fun cid =>
      if cid = "A" then Except.error "network failure"
      else Except.ok (true, { error := none, items := some [mkVid "b1" "u3" "d333"] })
    now := "NOW"
    parseTime := fun s => (s.length : Int) }

/-- World in which the search call of channel "A" returns a
non-success HTTP status (without throwing) while that of channel "B"
succeeds. -/
def wSkip : World :=
  { userinfo := Except.ok true
    subscriptions := Except.ok (true, { error := none, items := some [mkSub "A", mkSub "B"] })
    search := fun cid =>
      if cid = "A" then
        Except.ok (false, { error := none, items := some [mkVid "a1" "u1" "d1"] })
      else
        Except.ok (true, { error := none, items := some [mkVid "b1" "u3" "d333"] })
    now := "NOW"
    parseTime := fun s => (s.length : Int) }

/-- World whose subscriptions response has a non-success HTTP status
but an error-free payload with one subscription. -/
def wSubBad : World :=
  { userinfo := Except.ok true
    subscriptions := Except.ok (false, { error := none, items := some [mkSub "A"] })
    search := fun _ => Except.ok (true, { error := none, items := some [mkVid "b1" "u3" "d333"] })
    now := "NOW"
    parseTime := fun s => (s.length : Int) }

/-- World whose subscriptions payload carries an error field. -/
def wSubErr : World :=
  { userinfo := Except.ok true
    subscriptions := Except.ok
      (true, { error := some { message := some "quota", code := some 403 }, items := none })
    search := fun _ => Except.ok (true, { error := none, items := none })
    now := "NOW"
    parseTime := fun _ => 0 }

/-- Raw record whose title and publish timestamp are missing but whose
video id and thumbnail URL are present and non-empty. -/
def vNoTitle : YouTubeVideo :=
  { id := some { videoId := some "x" }
    snippet := some
      { title := none
        thumbnails := some { medium := some { url := some "u" } }
        publishedAt := none } }

/-! Helper lemmas -/

lemma videoLe_trans (pt : String → Int) (a b c : SanitizedVideo)
    (hab : videoLe pt a b = true) (hbc : videoLe pt b c = true) : videoLe pt a c = true := by
  simp only [videoLe, decide_eq_true_eq] at *
  exact le_trans hbc hab

lemma videoLe_total (pt : String → Int) (a b : SanitizedVideo) :
    (videoLe pt a b || videoLe pt b a) = true := by
  simp only [videoLe, decide_eq_true_eq, Bool.or_eq_true]
  exact Int.le_total (pt b.publishedAt) (pt a.publishedAt)

lemma keepVideo_of_mem_sanitize (now : String) (items : Option (List YouTubeVideo))
    (v : SanitizedVideo) (hv : v ∈ sanitizeVideos now items) : keepVideo v = true := by
  cases items with
  | none => simp [sanitizeVideos] at hv
  | some l =>
    simp only [sanitizeVideos, List.mem_filter] at hv
    exact hv.2

lemma keepVideo_of_mem_contribution (now : String) (r : Bool × SearchData)
    (v : SanitizedVideo) (hv : v ∈ channelContribution now r) : keepVideo v = true := by
  unfold channelContribution at hv
  split at hv
  · simp at hv
  · exact keepVideo_of_mem_sanitize now r.2.items v hv

lemma fetchAll_ok_keep (w : World) (cids : List String) (vids : List SanitizedVideo)
    (h : (fetchAll w cids).1 = Except.ok vids) :
    ∀ v ∈ vids, keepVideo v = true := by
  induction cids generalizing vids with
  | nil =>
    simp only [fetchAll] at h
    cases h
    intro v hv
    simp at hv
  | cons cid rest ih =>
    simp only [fetchAll] at h
    split at h
    · simp at h
    · rename_i r _
      cases htail : (fetchAll w rest).1 with
      | error e => rw [htail] at h; simp [Except.map] at h
      | ok tailVids =>
        rw [htail] at h
        simp only [Except.map] at h
        cases h
        intro v hv
        rcases List.mem_append.mp hv with hv | hv
        · exact keepVideo_of_mem_contribution w.now r v hv
        · exact ih tailVids htail v hv

lemma fetchAll_eq_of_all_ok (w : World) (cids : List String)
    (h : ∀ cid ∈ cids, ∃ r, w.search cid = Except.ok r) :
    fetchAll w cids =
      (Except.ok ((cids.map (contributionOf w)).flatten), cids.map UpstreamCall.search) := by
  induction cids with
  | nil => simp [fetchAll]
  | cons cid rest ih =>
    obtain ⟨r, hr⟩ := h cid (List.mem_cons_self cid rest)
    have hrest := ih (fun c hc => h c (List.mem_cons_of_mem cid hc))
    simp only [fetchAll, hr, hrest, List.map_cons, List.flatten_cons, Except.map]
    simp [contributionOf, hr]

lemma fetchAll_congr (w w' : World) (hs : w.search = w'.search) (hn : w.now = w'.now)
    (cids : List String) : fetchAll w cids = fetchAll w' cids := by
  induction cids with
  | nil => simp [fetchAll]
  | cons cid rest ih => simp only [fetchAll, hs, hn, ih]

lemma GET_ignores_subscription_ok_flag (w w' : World) (tok : Option String)
    (sd : SubscriptionsData) (b c : Bool)
    (hu : w'.userinfo = w.userinfo) (hs : w'.search = w.search) (hn : w'.now = w.now)
    (hp : w'.parseTime = w.parseTime)
    (hsub : w.subscriptions = Except.ok (b, sd)) (hsub' : w'.subscriptions = Except.ok (c, sd)) :
    GET w tok = GET w' tok := by
  have hfa : ∀ cids, fetchAll w' cids = fetchAll w cids :=
    fun cids => (fetchAll_congr w w' hs.symm hn.symm cids).symm
  cases tok with
  | none => rfl
  | some t =>
    by_cases ht : t = ""
    · simp [GET, ht]
    · cases hui : w.userinfo with
      | error e => simp [GET, ht, hui, hu]
      | ok uOk =>
        cases uOk with
        | false => simp [GET, ht, hui, hu]
        | true =>
          cases herr : sd.error with
          | some err => simp [GET, ht, hui, hu, hsub, hsub', herr]
          | none =>
            cases hitems : sd.items with
            | none => simp [GET, ht, hui, hu, hsub, hsub', herr, hitems]
            | some subs =>
              by_cases hlen : subs.length = 0
              · simp [GET, ht, hui, hu, hsub, hsub', herr, hitems, hlen]
              · simp [GET, ht, hui, hu, hsub, hsub', herr, hitems, hlen, hfa, hp]

/-- Inversion principle: a response whose body is `success items cnt` can
only come from the final branch of the handler, so the world reached the
video-fetch stage and `items`, `cnt` have the aggregated shape. -/
lemma GET_success_shape (w : World) (tok : Option String) (items : List SanitizedVideo) (cnt : Nat)
    (h : (GET w tok).1.body = ResponseBody.success items cnt) :
    ∃ sr subs vids,
      w.subscriptions = Except.ok sr ∧ sr.2.items = some subs ∧
      (fetchAll w (channelIdsOf subs)).1 = Except.ok vids ∧
      items = (vids.mergeSort (videoLe w.parseTime)).take 10 ∧
      cnt = (channelIdsOf subs).length := by
  cases tok with
  | none => simp [GET, missingTokenResponse] at h
  | some t =>
    by_cases ht : t = ""
    · simp [GET, ht, missingTokenResponse] at h
    · cases hui : w.userinfo with
      | error e => simp [GET, ht, hui, internalErrorResponse] at h
      | ok uOk =>
        cases uOk with
        | false => simp [GET, ht, hui, invalidTokenResponse] at h
        | true =>
          cases hsub : w.subscriptions with
          | error e => simp [GET, ht, hui, hsub, internalErrorResponse] at h
          | ok sr =>
            cases herr : sr.2.error with
            | some err => simp [GET, ht, hui, hsub, herr, upstreamErrorResponse] at h
            | none =>
              cases hitems : sr.2.items with
              | none => simp [GET, ht, hui, hsub, herr, hitems, notFoundResponse] at h
              | some subs =>
                by_cases hlen : subs.length = 0
                · simp [GET, ht, hui, hsub, herr, hitems, hlen, notFoundResponse] at h
                · cases hloop : (fetchAll w (channelIdsOf subs)).1 with
                  | error e =>
                    simp [GET, ht, hui, hsub, herr, hitems, hlen, hloop,
                      internalErrorResponse] at h
                  | ok vids =>
                    simp only [GET, ht, hui, hsub, herr, hitems, hlen, hloop, if_neg,
                      Bool.not_true, Bool.false_eq_true, if_false, successResponse] at h
                    obtain ⟨h1, h2⟩ := ResponseBody.success.inj h
                    exact ⟨sr, subs, vids, rfl, hitems, hloop, h1.symm, h2.symm⟩

/-- Shape principle: every response of the handler is one of the six
response constructors. -/
lemma GET_shapes (w : World) (tok : Option String) :
    (GET w tok).1 = missingTokenResponse ∨
    (GET w tok).1 = invalidTokenResponse ∨
    (∃ err, (GET w tok).1 = upstreamErrorResponse err) ∨
    (GET w tok).1 = notFoundResponse ∨
    (∃ e, (GET w tok).1 = internalErrorResponse e) ∨
    (∃ its c, (GET w tok).1 = successResponse its c) := by
  simp only [GET]
  split
  · exact Or.inl rfl
  · split
    · exact Or.inl rfl
    · split
      · exact Or.inr (Or.inr (Or.inr (Or.inr (Or.inl ⟨_, rfl⟩))))
      · split
        · exact Or.inr (Or.inl rfl)
        · split
          · exact Or.inr (Or.inr (Or.inr (Or.inr (Or.inl ⟨_, rfl⟩))))
          · split
            · exact Or.inr (Or.inr (Or.inl ⟨_, rfl⟩))
            · split
              · exact Or.inr (Or.inr (Or.inr (Or.inl rfl)))
              · split
                · exact Or.inr (Or.inr (Or.inr (Or.inl rfl)))
                · split
                  · exact Or.inr (Or.inr (Or.inr (Or.inr (Or.inl ⟨_, rfl⟩))))
                  · exact Or.inr (Or.inr (Or.inr (Or.inr (Or.inr ⟨_, _, rfl⟩))))

lemma GET_status_of_success (w : World) (tok : Option String) (items : List SanitizedVideo)
    (cnt : Nat) (h : (GET w tok).1.body = ResponseBody.success items cnt) :
    (GET w tok).1.status = 200 := by
  rcases GET_shapes w tok with hs | hs | ⟨err, hs⟩ | hs | ⟨e, hs⟩ | ⟨its, c, hs⟩ <;>
    rw [hs] at h ⊢ <;>
    simp_all [missingTokenResponse, invalidTokenResponse, upstreamErrorResponse,
      notFoundResponse, internalErrorResponse, successResponse]

/-! Claim theorems -/

/-- C1: for every success (HTTP 200) response, the items sequence is
sorted by parsed publish timestamp non-increasing and has length at
most 10. -/
theorem success_items_sorted_and_bounded (w : World) (tok : Option String)
    (items : List SanitizedVideo) (cnt : Nat)
    (h : (GET w tok).1.body = ResponseBody.success items cnt) :
    (GET w tok).1.status = 200 ∧
    items.Pairwise (fun a b => w.parseTime b.publishedAt ≤ w.parseTime a.publishedAt) ∧
    items.length ≤ 10 := by
  obtain ⟨sr, subs, vids, hsub, hitems, hloop, hEq, hcnt⟩ := GET_success_shape w tok items cnt h
  refine ⟨GET_status_of_success w tok items cnt h, ?_, ?_⟩
  · subst hEq
    have hs := @List.sorted_mergeSort SanitizedVideo (videoLe w.parseTime)
      (videoLe_trans w.parseTime) (videoLe_total w.parseTime) vids
    have hs' : (vids.mergeSort (videoLe w.parseTime)).Pairwise
        (fun a b => w.parseTime b.publishedAt ≤ w.parseTime a.publishedAt) :=
      hs.imp (fun hab => by simpa [videoLe, decide_eq_true_eq] using hab)
    exact hs'.sublist (List.take_sublist 10 _) |>.imp id |>.imp id
  · subst hEq
    exact List.length_take_le 10 _

unseal List.merge List.mergeSort in
/-- C1 witness: the concrete world `wOk` yields a success response whose
items are sorted and bounded. -/
theorem success_items_sorted_and_bounded_witness :
    (GET wOk (some "t")).1.status = 200 ∧
    wOkItems.Pairwise (fun a b => wOk.parseTime b.publishedAt ≤ wOk.parseTime a.publishedAt) ∧
    wOkItems.length ≤ 10 :=
  success_items_sorted_and_bounded wOk (some "t") wOkItems 2 (by decide)

/-- C2: every sanitized video in a success response has a non-empty
video identifier and a non-empty medium-thumbnail URL. -/
theorem success_items_id_thumb_nonempty (w : World) (tok : Option String)
    (items : List SanitizedVideo) (cnt : Nat) (v : SanitizedVideo)
    (h : (GET w tok).1.body = ResponseBody.success items cnt) (hv : v ∈ items) :
    v.videoId ≠ "" ∧ v.thumbnailUrl ≠ "" := by
  obtain ⟨sr, subs, vids, hsub, hitems, hloop, hEq, hcnt⟩ := GET_success_shape w tok items cnt h
  subst hEq
  have hv1 : v ∈ vids := List.mem_mergeSort.mp (List.mem_of_mem_take hv)
  have hk := fetchAll_ok_keep w (channelIdsOf subs) vids hloop v hv1
  simp only [keepVideo, Bool.and_eq_true, bne_iff_ne] at hk
  exact hk

unseal List.merge List.mergeSort in
/-- C2 witness: the top item of the response of `wOk` has non-empty
id and thumbnail URL. -/
theorem success_items_id_thumb_nonempty_witness :
    wOkTop.videoId ≠ "" ∧ wOkTop.thumbnailUrl ≠ "" :=
  success_items_id_thumb_nonempty wOk (some "t") wOkItems 2 wOkTop (by decide) (by decide)

/-- C9: a request without the access_token parameter gets a 401
response with error "Access token required" and no upstream call is
made. -/
theorem missing_token_unauthorized_no_calls (w : World) :
    (GET w none).1.status = 401 ∧
    (GET w none).1.body = ResponseBody.errorOnly "Access token required" ∧
    (GET w none).2 = [] :=
  ⟨rfl, rfl, rfl⟩

/-- C4: a token rejected by the userinfo endpoint (non-success status)
gets a 401 response with error "Invalid or expired access token", and
neither the subscriptions-list call nor any video-search call is
attempted. -/
theorem invalid_token_unauthorized_no_further_calls (w : World) (t : String)
    (ht : t ≠ "") (hui : w.userinfo = Except.ok false) :
    (GET w (some t)).1.status = 401 ∧
    (GET w (some t)).1.body = ResponseBody.errorOnly "Invalid or expired access token" ∧
    (GET w (some t)).2 = [UpstreamCall.userinfo] ∧
    UpstreamCall.subscriptions ∉ (GET w (some t)).2 ∧
    ∀ cid, UpstreamCall.search cid ∉ (GET w (some t)).2 := by
  have hg : GET w (some t) = (invalidTokenResponse, [UpstreamCall.userinfo]) := by
    simp [GET, ht, hui]
  rw [hg]
  exact ⟨rfl, rfl, rfl, by simp, by intro cid; simp⟩

/-- C4 witness: the concrete world `wBadTok` is rejected with 401 and
only the userinfo call in the trace. -/
theorem invalid_token_unauthorized_no_further_calls_witness :
    (GET wBadTok (some "t")).1.status = 401 ∧
    (GET wBadTok (some "t")).1.body = ResponseBody.errorOnly "Invalid or expired access token" ∧
    (GET wBadTok (some "t")).2 = [UpstreamCall.userinfo] ∧
    UpstreamCall.subscriptions ∉ (GET wBadTok (some "t")).2 ∧
    ∀ cid, UpstreamCall.search cid ∉ (GET wBadTok (some "t")).2 :=
  invalid_token_unauthorized_no_further_calls wBadTok "t" (by decide) rfl

/-- C6: an empty (or absent) subscriptions list yields a 404 response
with error "No subscriptions found" and no video-search call occurs. -/
theorem empty_subscriptions_not_found_no_search (w : World) (t : String)
    (sr : Bool × SubscriptionsData)
    (ht : t ≠ "") (hui : w.userinfo = Except.ok true)
    (hsub : w.subscriptions = Except.ok sr) (herr : sr.2.error = none)
    (hempty : sr.2.items = none ∨ sr.2.items = some []) :
    (GET w (some t)).1.status = 404 ∧
    (GET w (some t)).1.body = ResponseBody.errorOnly "No subscriptions found" ∧
    (GET w (some t)).2 = [UpstreamCall.userinfo, UpstreamCall.subscriptions] ∧
    ∀ cid, UpstreamCall.search cid ∉ (GET w (some t)).2 := by
  have hg : GET w (some t) =
      (notFoundResponse, [UpstreamCall.userinfo, UpstreamCall.subscriptions]) := by
    rcases hempty with he | he <;> simp [GET, ht, hui, hsub, herr, he]
  rw [hg]
  exact ⟨rfl, rfl, rfl, by intro cid; simp⟩

/-- C6 witness: the concrete world `wNoSubs` yields 404 with no search
calls. -/
theorem empty_subscriptions_not_found_no_search_witness :
    (GET wNoSubs (some "t")).1.status = 404 ∧
    (GET wNoSubs (some "t")).1.body = ResponseBody.errorOnly "No subscriptions found" ∧
    (GET wNoSubs (some "t")).2 = [UpstreamCall.userinfo, UpstreamCall.subscriptions] ∧
    ∀ cid, UpstreamCall.search cid ∉ (GET wNoSubs (some "t")).2 :=
  empty_subscriptions_not_found_no_search wNoSubs "t"
    (true, { error := none, items := some [] }) (by decide) rfl rfl rfl (Or.inr rfl)

/-- C3 counterexample: a transport-level failure on channel "A" (while
the fetch for channel "B" would succeed) does not yield a 200
response with the videos of channel "B": the exception escapes the
loop and the handler answers 500. -/
theorem channel_transport_failure_aborts_request :
    (GET wNet (some "t")).1 = internalErrorResponse "network failure" ∧
    (GET wNet (some "t")).1.status = 500 ∧
    (GET wNet (some "t")).1.status ≠ 200 ∧
    (∃ r, wNet.search "B" = Except.ok r ∧ r.1 = true ∧ r.2.error = none) :=
  ⟨rfl, rfl, by decide, ⟨_, rfl, rfl, rfl⟩⟩

/-- C3 amended: when no channel search call throws, a channel whose
response has a non-success HTTP status or an error payload contributes
zero videos, processing continues, and the overall response is a 200
success built from the per-channel contributions. -/
theorem channel_error_skipped_when_no_throw (w : World) (t : String)
    (sr : Bool × SubscriptionsData) (subs : List Subscription)
    (ht : t ≠ "") (hui : w.userinfo = Except.ok true)
    (hsub : w.subscriptions = Except.ok sr) (herr : sr.2.error = none)
    (hitems : sr.2.items = some subs) (hne : subs ≠ [])
    (hall : ∀ cid ∈ channelIdsOf subs, ∃ r, w.search cid = Except.ok r) :
    (GET w (some t)).1.status = 200 ∧
    (GET w (some t)).1.body = ResponseBody.success
      ((((channelIdsOf subs).map (contributionOf w)).flatten.mergeSort
          (videoLe w.parseTime)).take 10)
      (channelIdsOf subs).length ∧
    (∀ cid r, w.search cid = Except.ok r → (!r.1 || r.2.error.isSome) = true →
      contributionOf w cid = []) := by
  have hfa := fetchAll_eq_of_all_ok w (channelIdsOf subs) hall
  have hlen : ¬subs.length = 0 := by simpa [List.length_eq_zero] using hne
  have hg : GET w (some t) =
      (successResponse
        ((((channelIdsOf subs).map (contributionOf w)).flatten.mergeSort
            (videoLe w.parseTime)).take 10)
        (channelIdsOf subs).length,
       UpstreamCall.userinfo :: UpstreamCall.subscriptions ::
         (channelIdsOf subs).map UpstreamCall.search) := by
    simp [GET, ht, hui, hsub, herr, hitems, hlen, hfa]
  rw [hg]
  refine ⟨rfl, rfl, ?_⟩
  intro cid r hr hskip
  simp [contributionOf, hr, channelContribution, hskip]

/-- C3 amended witness: in `wSkip`, channel "A" reports a non-success
status, channel "B" succeeds, and the response is the 200 success built
from the contributions. -/
theorem channel_error_skipped_when_no_throw_witness :
    (GET wSkip (some "t")).1.status = 200 ∧
    (GET wSkip (some "t")).1.body = ResponseBody.success
      ((((channelIdsOf [mkSub "A", mkSub "B"]).map (contributionOf wSkip)).flatten.mergeSort
          (videoLe wSkip.parseTime)).take 10)
      (channelIdsOf [mkSub "A", mkSub "B"]).length ∧
    (∀ cid r, wSkip.search cid = Except.ok r → (!r.1 || r.2.error.isSome) = true →
      contributionOf wSkip cid = []) :=
  channel_error_skipped_when_no_throw wSkip "t"
    (true, { error := none, items := some [mkSub "A", mkSub "B"] }) [mkSub "A", mkSub "B"]
    (by decide) rfl rfl rfl rfl (by decide)
    (by
      intro cid hcid
      by_cases h : cid = "A"
      · subst h
        exact ⟨(false, { error := none, items := some [mkVid "a1" "u1" "d1"] }), rfl⟩
      · refine ⟨(true, { error := none, items := some [mkVid "b1" "u3" "d333"] }), ?_⟩
        simp [wSkip, h])

/-- C5: the 404 "No subscriptions found" response and the
subscriptions upstream-error response are returned without the
cache-disabling headers, although the claim requires them on every
response. -/
theorem not_found_and_upstream_error_lack_cache_headers :
    (GET wNoSubs (some "t")).1.status = 404 ∧
    (GET wNoSubs (some "t")).1.headers = [] ∧
    (GET wSubErr (some "t")).1.status = 403 ∧
    (GET wSubErr (some "t")).1.headers = [] ∧
    cacheHeaders ≠ [] :=
  ⟨rfl, rfl, rfl, rfl, by decide⟩

/-- C8: in a success response, subscriptionCount is the number of
channel identifiers extracted from the subscription records (records
without a channel id dropped). -/
theorem subscription_count_counts_channel_ids (w : World) (tok : Option String)
    (items : List SanitizedVideo) (cnt : Nat) (sr : Bool × SubscriptionsData)
    (subs : List Subscription)
    (h : (GET w tok).1.body = ResponseBody.success items cnt)
    (hsub : w.subscriptions = Except.ok sr) (hitems : sr.2.items = some subs) :
    cnt = (subs.filterMap extractChannelId).length := by
  obtain ⟨sr', subs', vids, hsub', hitems', hloop, hEq, hcnt⟩ := GET_success_shape w tok items cnt h
  have hsr : sr' = sr := by
    rw [hsub] at hsub'
    exact (Except.ok.inj hsub').symm
  subst hsr
  have hss : subs' = subs := by
    rw [hitems] at hitems'
    exact (Option.some.inj hitems').symm
  subst hss
  simpa [channelIdsOf] using hcnt

unseal List.merge List.mergeSort in
/-- C8 witness: the success response of `wOk` reports
subscriptionCount 2, the number of extracted channel ids. -/
theorem subscription_count_counts_channel_ids_witness :
    2 = ([mkSub "A", mkSub "B"].filterMap extractChannelId).length :=
  subscription_count_counts_channel_ids wOk (some "t") wOkItems 2
    (true, { error := none, items := some [mkSub "A", mkSub "B"] })
    [mkSub "A", mkSub "B"] (by decide) rfl rfl

/-- C10: the subscriptions stage never raises an error from the HTTP
status alone: the handler's result is unchanged when the subscriptions
response's ok flag is flipped to true, and with an error-free payload a
non-success subscriptions response still yields 404 on an absent or
empty items list and otherwise proceeds to the per-channel searches. -/
theorem subscriptions_error_only_from_payload (w : World) (tok : Option String)
    (sd : SubscriptionsData) (b : Bool)
    (hsub : w.subscriptions = Except.ok (b, sd)) (herr : sd.error = none) :
    GET w tok = GET { w with subscriptions := Except.ok (true, sd) } tok ∧
    (∀ t, tok = some t → t ≠ "" → w.userinfo = Except.ok true →
      (sd.items = none ∨ sd.items = some []) →
      (GET w tok).1.status = 404 ∧
      (GET w tok).1.body = ResponseBody.errorOnly "No subscriptions found") ∧
    (∀ t subs, tok = some t → t ≠ "" → w.userinfo = Except.ok true →
      sd.items = some subs → subs ≠ [] →
      (GET w tok).2 = UpstreamCall.userinfo :: UpstreamCall.subscriptions ::
        (fetchAll w (channelIdsOf subs)).2) := by
  refine ⟨GET_ignores_subscription_ok_flag w { w with subscriptions := Except.ok (true, sd) }
    tok sd b true rfl rfl rfl rfl hsub rfl, ?_, ?_⟩
  · intro t htok ht hui hempty
    subst htok
    rcases hempty with he | he <;>
      exact ⟨by simp [GET, ht, hui, hsub, herr, he, notFoundResponse],
             by simp [GET, ht, hui, hsub, herr, he, notFoundResponse]⟩
  · intro t subs htok ht hui hitems hne
    subst htok
    have hlen : ¬subs.length = 0 := by simpa [List.length_eq_zero] using hne
    cases hloop : (fetchAll w (channelIdsOf subs)).1 <;>
      simp [GET, ht, hui, hsub, herr, hitems, hlen, hloop]

/-- C10 witness: the non-success subscriptions response of `wSubBad`
with an error-free payload is processed exactly as a successful one. -/
theorem subscriptions_error_only_from_payload_witness :
    (GET wSubBad (some "t") =
      GET { wSubBad with
              subscriptions := Except.ok (true, { error := none, items := some [mkSub "A"] }) }
        (some "t")) ∧
    (∀ t, some "t" = some t → t ≠ "" → wSubBad.userinfo = Except.ok true →
      ((some [mkSub "A"] : Option (List Subscription)) = none ∨
        (some [mkSub "A"] : Option (List Subscription)) = some []) →
      (GET wSubBad (some "t")).1.status = 404 ∧
      (GET wSubBad (some "t")).1.body = ResponseBody.errorOnly "No subscriptions found") ∧
    (∀ t subs, some "t" = some t → t ≠ "" → wSubBad.userinfo = Except.ok true →
      (some [mkSub "A"] : Option (List Subscription)) = some subs → subs ≠ [] →
      (GET wSubBad (some "t")).2 = UpstreamCall.userinfo :: UpstreamCall.subscriptions ::
        (fetchAll wSubBad (channelIdsOf subs)).2) :=
  subscriptions_error_only_from_payload wSubBad (some "t")
    { error := none, items := some [mkSub "A"] } false rfl rfl

/-- C7: sanitization substitutes the empty string for a missing title
and the current timestamp for a missing publish timestamp; a record is
dropped iff its extracted video id or extracted thumbnail URL is empty
(absent fields extract to ""), so a record missing only `snippet.title`
is kept with title "". -/
theorem sanitize_defaults_title_and_timestamp (now : String) (item : YouTubeVideo) :
    (item.snippet.bind VideoSnippet.title = none → (sanitizeVideo now item).title = "") ∧
    (item.snippet.bind VideoSnippet.publishedAt = none →
      (sanitizeVideo now item).publishedAt = now) ∧
    (sanitizeVideos now (some [item]) = [] ↔
      jsOr (item.id.bind VideoId.videoId) "" = "" ∨
      jsOr (((item.snippet.bind VideoSnippet.thumbnails).bind Thumbnails.medium).bind Thumb.url)
        "" = "") ∧
    (item.snippet.bind VideoSnippet.title = none →
      jsOr (item.id.bind VideoId.videoId) "" ≠ "" →
      jsOr (((item.snippet.bind VideoSnippet.thumbnails).bind Thumbnails.medium).bind Thumb.url)
        "" ≠ "" →
      sanitizeVideos now (some [item]) = [sanitizeVideo now item] ∧
      (sanitizeVideo now item).title = "") := by
  refine ⟨?_, ?_, ?_, ?_⟩
  · intro h
    simp [sanitizeVideo, h, jsOr]
  · intro h
    simp [sanitizeVideo, h, jsOr]
  · by_cases h1 : jsOr (item.id.bind VideoId.videoId) "" = ""
    · simp [sanitizeVideos, List.filter, keepVideo, sanitizeVideo, h1]
    · by_cases h2 : jsOr
          (((item.snippet.bind VideoSnippet.thumbnails).bind Thumbnails.medium).bind Thumb.url)
          "" = ""
      · simp [sanitizeVideos, List.filter, keepVideo, sanitizeVideo, h1, h2]
      · have hb1 : (jsOr (item.id.bind VideoId.videoId) "" != "") = true := by
          simp [bne_iff_ne, h1]
        have hb2 : (jsOr
            (((item.snippet.bind VideoSnippet.thumbnails).bind Thumbnails.medium).bind Thumb.url)
            "" != "") = true := by
          simp [bne_iff_ne, h2]
        simp [sanitizeVideos, List.filter, keepVideo, sanitizeVideo, h1, h2, hb1, hb2]
  · intro ht h1 h2
    refine ⟨?_, by simp [sanitizeVideo, ht, jsOr]⟩
    have hb1 : (jsOr (item.id.bind VideoId.videoId) "" != "") = true := by
      simp [bne_iff_ne, h1]
    have hb2 : (jsOr
        (((item.snippet.bind VideoSnippet.thumbnails).bind Thumbnails.medium).bind Thumb.url)
        "" != "") = true := by
      simp [bne_iff_ne, h2]
    simp [sanitizeVideos, List.filter, keepVideo, sanitizeVideo, hb1, hb2]

/-- C7 witness: the concrete record `vNoTitle` (no title, no
timestamp, non-empty id and thumbnail) sanitizes to title "" and
timestamp "NOW" and is kept. -/
theorem sanitize_defaults_title_and_timestamp_witness :
    (sanitizeVideo "NOW" vNoTitle).title = "" ∧
    (sanitizeVideo "NOW" vNoTitle).publishedAt = "NOW" ∧
    sanitizeVideos "NOW" (some [vNoTitle]) = [sanitizeVideo "NOW" vNoTitle] := by
  obtain ⟨h1, h2, _, h4⟩ := sanitize_defaults_title_and_timestamp "NOW" vNoTitle
  exact ⟨h1 rfl, h2 rfl, (h4 rfl (by decide) (by decide)).1⟩

end Ytsubfetch
